import Mathlib

/-!
Shallow embedding of the turn-resolution core of a tile-grid roguelike:
the entity/ownership model (entity.py), the spatial grid and its queries
(game_map.py), and the action model (actions.py).

Python object identity is modelled by numeric ids into per-kind stores held
in a `State`; the unordered entity set of a map is modelled as a list of
entity ids giving one possible iteration order, and theorems quantify over
that order wherever the source leaves it unspecified.  Python integers are
`Int`; fallible operations (`set.remove` raising KeyError) return `Option`.
-/

/-- Render-order tiers (render_order.py): CORPSE below ITEM below ACTOR;
used only for draw sorting. -/
inductive RenderOrder where
  | corpse
  | item
  | actor
deriving DecidableEq, Repr

/-- The ownership reference of an entity: its `parent` attribute is either a
game map or an inventory container (entity.py, `parent: Union[GameMap, Inventory]`). -/
inductive ParentRef where
  | map (mid : Nat)
  | inventory (iid : Nat)
deriving DecidableEq, Repr

/-- The dynamic class of an entity together with the ids of its attached
component instances: a plain `Entity`, an `Actor` (optional AI handle,
Fighter id, Inventory id), or an `Item` (Consumable id). -/
inductive EntityKind where
  | generic
  | actor (ai : Option Nat) (fighter : Nat) (inventory : Nat)
  | item (consumable : Nat)
deriving DecidableEq, Repr

/-- entity.py `Entity.__init__` attributes.  `parent = none` models the
attribute never having been set (`hasattr(self, "parent")` is false). -/
structure Entity where
  name : String
  char : Char
  colour : Int × Int × Int
  x : Int
  y : Int
  blocks_movement : Bool
  render_order : RenderOrder
  parent : Option ParentRef
  kind : EntityKind
deriving DecidableEq, Repr

/-- Modelled from the spec: components/fighter.py is outside the given core
sources; the spec requires only that a Fighter deep-copies and carries a
back-reference to its owning actor, its combat stats being opaque.  `data`
stands for that opaque mutable state. -/
structure Fighter where
  parent : Option Nat
  data : Int
deriving DecidableEq, Repr

/-- Modelled from the spec: components/inventory.py is outside the given
core sources; like Fighter, an Inventory deep-copies, holds a back-reference
and opaque mutable contents, represented by `data`. -/
structure Inventory where
  parent : Option Nat
  data : Int
deriving DecidableEq, Repr

/-- Modelled from the spec: components/consumable.py is outside the given
core sources; a Consumable deep-copies and holds a back-reference. -/
structure Consumable where
  parent : Option Nat
  data : Int
deriving DecidableEq, Repr

/-- game_map.py `GameMap`: dimensions, the walkable flag of the tile record
at each coordinate (tiles["walkable"][x, y]), and the entity set, as one
iteration order of its member ids. -/
structure GameMap where
  width : Int
  height : Int
  walkable : Int → Int → Bool
  entities : List Nat

/-- The world: stores for entities, maps and component instances indexed by
id, the next fresh id for allocation, and the message log written by
`print`. -/
structure State where
  ents : Nat → Entity
  maps : Nat → GameMap
  fighters : Nat → Fighter
  inventories : Nat → Inventory
  consumables : Nat → Consumable
  nextId : Nat
  messages : List String

def State.setEnt (s : State) (i : Nat) (e : Entity) : State :=
  { s with ents := fun j => if j = i then e else s.ents j }

def State.setMap (s : State) (i : Nat) (m : GameMap) : State :=
  { s with maps := fun j => if j = i then m else s.maps j }

def State.setFighter (s : State) (i : Nat) (f : Fighter) : State :=
  { s with fighters := fun j => if j = i then f else s.fighters j }

def State.setInventory (s : State) (i : Nat) (v : Inventory) : State :=
  { s with inventories := fun j => if j = i then v else s.inventories j }

def State.setConsumable (s : State) (i : Nat) (c : Consumable) : State :=
  { s with consumables := fun j => if j = i then c else s.consumables j }

/-- Python `set.add`: insert the id unless already a member (the resulting
iteration order is unspecified in the source; we pick cons). -/
def setAdd (l : List Nat) (i : Nat) : List Nat :=
  if i ∈ l then l else i :: l

/-- Python `set.remove`: remove the id, raising KeyError (`none`) when
absent. -/
def setRemove (l : List Nat) (i : Nat) : Option (List Nat) :=
  if i ∈ l then some (l.erase i) else none

/-- game_map.py `GameMap.in_bounds`: true iff x and y are inside the bounds
of this map. -/
def GameMap.in_bounds (m : GameMap) (x y : Int) : Bool :=
  decide (0 ≤ x ∧ x < m.width ∧ 0 ≤ y ∧ y < m.height)

/-- `isinstance(entity, Actor)`. -/
def Entity.isActor (e : Entity) : Bool :=
  match e.kind with
  | .actor _ _ _ => true
  | _ => false

/-- entity.py `Actor.is_alive`: `bool(self.ai)` — alive iff the AI handle is
present (false on non-actors, where the attribute does not exist). -/
def Entity.is_alive (e : Entity) : Bool :=
  match e.kind with
  | .actor ai _ _ => ai.isSome
  | _ => false

/-- game_map.py `GameMap.actors`: iterate over the living actors in the map,
i.e. the entity set filtered to `isinstance(entity, Actor) and entity.is_alive`,
in entity-set iteration order. -/
def GameMap.actors (s : State) (m : GameMap) : List Nat :=
  m.entities.filter (fun i => (s.ents i).isActor && (s.ents i).is_alive)

/-- game_map.py `GameMap.get_actor_at_location`: scan `self.actors` for the
first actor at (x, y); if found, return it when alive and `None` otherwise
(the source re-checks liveness inside the loop); return `None` when the scan
finds nothing. -/
def GameMap.get_actor_at_location (s : State) (m : GameMap) (x y : Int) : Option Nat :=
  match (m.actors s).find? (fun i => decide ((s.ents i).x = x) && decide ((s.ents i).y = y)) with
  | some i => if (s.ents i).is_alive then some i else none
  | none => none

/-- game_map.py `GameMap.get_blocking_entity_at_location`: the first entity
in the set (any type) that blocks movement and sits at the given location,
else `None`. -/
def GameMap.get_blocking_entity_at_location (s : State) (m : GameMap)
    (location_x location_y : Int) : Option Nat :=
  m.entities.find? (fun i =>
    (s.ents i).blocks_movement
      && decide ((s.ents i).x = location_x) && decide ((s.ents i).y = location_y))

/-- entity.py `Entity.move`: unconditionally add the given amount to the
entity's position. -/
def Entity.move (s : State) (eid : Nat) (dx dy : Int) : State :=
  let e := s.ents eid
  s.setEnt eid { e with x := e.x + dx, y := e.y + dy }

/-- Register an entity on a map: `self.parent = gamemap` followed by
`gamemap.entities.add(self)` (the tail of entity.py `Entity.place`). -/
def addToMap (s : State) (eid mid : Nat) : State :=
  let s1 := s.setEnt eid { s.ents eid with parent := some (.map mid) }
  s1.setMap mid { s1.maps mid with entities := setAdd (s1.maps mid).entities eid }

/-- entity.py `Entity.place`: set the position unconditionally; when a map is
supplied, remove the entity from its current map's set — only when its
`parent` attribute exists and `self.parent is self.gamemap` (true exactly
when the parent is a map, since an Inventory is never its own gamemap
resolution) — then assign the new owner and register the entity there.
`set.remove` raises (here: `none`) when the entity is not in the old set. -/
def Entity.place (s : State) (eid : Nat) (x y : Int) (gamemap : Option Nat) :
    Option State :=
  let e := s.ents eid
  let s1 := s.setEnt eid { e with x := x, y := y }
  match gamemap with
  | none => some s1
  | some mid =>
    match (s1.ents eid).parent with
    | some (.map oldMid) =>
      match setRemove (s1.maps oldMid).entities eid with
      | none => none
      | some l =>
        some (addToMap (s1.setMap oldMid { s1.maps oldMid with entities := l }) eid mid)
    | _ => some (addToMap s1 eid mid)

/-- entity.py `Entity.spawn`: `copy.deepcopy(self)` then overwrite the
clone's position, set its parent to the target map and register it there.
`deepcopy` allocates fresh objects for the entity and each attached
component (fresh ids from `nextId`), copying component state and pointing
the copied back-references at the clone; a deep-copied parent map, were one
set on the template, is immediately overwritten and unreachable, so it is
not materialised here.  Returns the clone's id and the new state. -/
def Entity.spawn (s : State) (tid : Nat) (gamemap : Nat) (x y : Int) :
    Nat × State :=
  let t := s.ents tid
  let cid := s.nextId
  let ks :
      EntityKind × State :=
    match t.kind with
    | .generic => (EntityKind.generic, { s with nextId := cid + 1 })
    | .actor ai fid iid =>
      let s1 := { s with nextId := cid + 4 }
      let s2 := s1.setFighter (cid + 1) { s.fighters fid with parent := some cid }
      let s3 := s2.setInventory (cid + 2) { s.inventories iid with parent := some cid }
      (EntityKind.actor (ai.map fun _ => cid + 3) (cid + 1) (cid + 2), s3)
    | .item c =>
      let s1 := { s with nextId := cid + 2 }
      (EntityKind.item (cid + 1), s1.setConsumable (cid + 1) { s.consumables c with parent := some cid })
  let clone : Entity := { t with kind := ks.1, x := x, y := y, parent := some (.map gamemap) }
  let s2 := ks.2.setEnt cid clone
  (cid, s2.setMap gamemap { s2.maps gamemap with entities := setAdd (s2.maps gamemap).entities cid })

/-- entity.py `Entity.__init__` at a chosen entity id: store the attributes;
when a parent map is provided, assign it and register the entity in that
map's set, otherwise leave the `parent` attribute unset. -/
def Entity.init (s : State) (eid : Nat) (name : String) (char : Char)
    (colour : Int × Int × Int) (x y : Int) (blocks_movement : Bool)
    (parent : Option Nat) (render_order : RenderOrder) : State :=
  let e : Entity := { name := name, char := char, colour := colour, x := x, y := y,
                      blocks_movement := blocks_movement, render_order := render_order,
                      parent := parent.map ParentRef.map, kind := .generic }
  let s1 := s.setEnt eid e
  match parent with
  | none => s1
  | some mid => s1.setMap mid { s1.maps mid with entities := setAdd (s1.maps mid).entities eid }

/-- entity.py `Actor.__init__` at a chosen entity id: delegates to
`Entity.__init__` with `blocks_movement = True` and `render_order = ACTOR`
and no parent, then attaches a freshly constructed AI handle (`ai_cls(self)`,
always present) and the given Fighter and Inventory instances, wiring their
back-references to this actor. -/
def Actor.init (s : State) (eid : Nat) (x y : Int) (char : Char)
    (colour : Int × Int × Int) (name : String) (aiId fid iid : Nat) : State :=
  let e : Entity := { name := name, char := char, colour := colour, x := x, y := y,
                      blocks_movement := true, render_order := .actor,
                      parent := none, kind := .actor (some aiId) fid iid }
  let s1 := s.setEnt eid e
  let s2 := s1.setFighter fid { s1.fighters fid with parent := some eid }
  s2.setInventory iid { s2.inventories iid with parent := some eid }

/-- actions.py `ActionWithDirection.dest_xy`: this action's destination. -/
def dest_xy (s : State) (eid : Nat) (dx dy : Int) : Int × Int :=
  ((s.ents eid).x + dx, (s.ents eid).y + dy)

/-- actions.py `MovementAction.perform`.  The action reaches its map through
`self.engine.game_map`; the Engine class is outside the given core sources,
so — modelled from the spec's explicit-context reframing — the engine's
current game map is the explicit argument `mid`.  Out-of-bounds, unwalkable
or blocked destinations return with no change; otherwise the entity moves. -/
def MovementAction.perform (s : State) (mid eid : Nat) (dx dy : Int) : State :=
  let d := dest_xy s eid dx dy
  let m := s.maps mid
  if !(m.in_bounds d.1 d.2) then s
  else if !(m.walkable d.1 d.2) then s
  else if (m.get_blocking_entity_at_location s d.1 d.2).isSome then s
  else Entity.move s eid dx dy

/-- actions.py `MeléeAction.perform` (Lean identifiers cannot carry the
accent): fetch the blocking entity at the destination; if none, return;
otherwise print the kick message naming the target. -/
def MeleeAction.perform (s : State) (mid eid : Nat) (dx dy : Int) : State :=
  let d := dest_xy s eid dx dy
  match (s.maps mid).get_blocking_entity_at_location s d.1 d.2 with
  | none => s
  | some target =>
    { s with messages :=
        s.messages ++ ["You kick the " ++ (s.ents target).name ++ ", much to its annoyance!"] }

/-- actions.py `BumpAction.perform`: if a blocking entity occupies the
destination, perform a melée with the same displacement, otherwise move into
the empty space. -/
def BumpAction.perform (s : State) (mid eid : Nat) (dx dy : Int) : State :=
  let d := dest_xy s eid dx dy
  if ((s.maps mid).get_blocking_entity_at_location s d.1 d.2).isSome then
    MeleeAction.perform s mid eid dx dy
  else
    MovementAction.perform s mid eid dx dy

/-- How a `perform` call ends: a normal return carrying the world state, or
the non-local `raise SystemExit()`. -/
inductive PerformResult where
  | normal (s : State)
  | systemExit

/-- actions.py `EscapeAction.perform`: `raise SystemExit()` — never a normal
return. -/
def EscapeAction.perform (s : State) (eid : Nat) : PerformResult :=
  PerformResult.systemExit

/-- `MovementAction.perform` with its exception behaviour explicit: its body
contains no raise statement, so it always returns normally. -/
def MovementAction.performRes (s : State) (mid eid : Nat) (dx dy : Int) : PerformResult :=
  .normal (MovementAction.perform s mid eid dx dy)

/-- `MeléeAction.perform` with its exception behaviour explicit: no raise
statement, always a normal return. -/
def MeleeAction.performRes (s : State) (mid eid : Nat) (dx dy : Int) : PerformResult :=
  .normal (MeleeAction.perform s mid eid dx dy)

/-- `BumpAction.perform` with its exception behaviour explicit: it only
delegates to Melée or Movement, neither of which raises. -/
def BumpAction.performRes (s : State) (mid eid : Nat) (dx dy : Int) : PerformResult :=
  .normal (BumpAction.perform s mid eid dx dy)

/-! Concrete worlds used by the witnesses and counterexamples below. -/

def defEntity : Entity :=
  { name := "<Unnamed>", char := '?', colour := (255, 255, 255), x := 0, y := 0,
    blocks_movement := false, render_order := .corpse, parent := none, kind := .generic }

def defMap : GameMap :=
  { width := 10, height := 10, walkable := fun _ _ => true, entities := [] }

def baseState : State :=
  { ents := fun _ => defEntity, maps := fun _ => defMap,
    fighters := fun _ => { parent := none, data := 0 },
    inventories := fun _ => { parent := none, data := 0 },
    consumables := fun _ => { parent := none, data := 0 },
    nextId := 100, messages := [] }

/-- A 10×10 all-walkable map holding one non-blocking entity 0 at (5, 5). -/
def W1 : State :=
  { baseState with
    ents := fun j => if j = 0 then { defEntity with x := 5, y := 5 } else defEntity,
    maps := fun j => if j = 0 then { defMap with entities := [0] } else defMap }

/-- As `W1` but with a blocking actor 1 named troll at (6, 5). -/
def W2 : State :=
  { baseState with
    ents := fun j =>
      if j = 0 then { defEntity with x := 5, y := 5 }
      else if j = 1 then
        { defEntity with name := "troll", x := 6, y := 5, blocks_movement := true,
                         render_order := .actor, kind := .actor (some 10) 11 12 }
      else defEntity,
    maps := fun j => if j = 0 then { defMap with entities := [0, 1] } else defMap }

/-- An illegal movement — out of bounds, unwalkable or blocked destination —
returns the state unchanged. -/
theorem movement_perform_noop (s : State) (mid eid : Nat) (dx dy : Int)
    (h : (s.maps mid).in_bounds ((s.ents eid).x + dx) ((s.ents eid).y + dy) = false
      ∨ (s.maps mid).walkable ((s.ents eid).x + dx) ((s.ents eid).y + dy) = false
      ∨ ((s.maps mid).get_blocking_entity_at_location s ((s.ents eid).x + dx)
          ((s.ents eid).y + dy)).isSome = true) :
    MovementAction.perform s mid eid dx dy = s := by
  unfold MovementAction.perform dest_xy
  rcases h with h | h | h
  · simp [h]
  · by_cases hb : (s.maps mid).in_bounds ((s.ents eid).x + dx) ((s.ents eid).y + dy)
    · simp [hb, h]
    · simp [hb]
  · by_cases hb : (s.maps mid).in_bounds ((s.ents eid).x + dx) ((s.ents eid).y + dy)
    · by_cases hw : (s.maps mid).walkable ((s.ents eid).x + dx) ((s.ents eid).y + dy)
      · simp [hb, hw, h]
      · simp [hb, hw]
    · simp [hb]

/-- A legal movement applies `Entity.move`. -/
theorem movement_perform_moves (s : State) (mid eid : Nat) (dx dy : Int)
    (h1 : (s.maps mid).in_bounds ((s.ents eid).x + dx) ((s.ents eid).y + dy) = true)
    (h2 : (s.maps mid).walkable ((s.ents eid).x + dx) ((s.ents eid).y + dy) = true)
    (h3 : (s.maps mid).get_blocking_entity_at_location s ((s.ents eid).x + dx)
        ((s.ents eid).y + dy) = none) :
    MovementAction.perform s mid eid dx dy = Entity.move s eid dx dy := by
  unfold MovementAction.perform dest_xy
  simp [h1, h2, h3]

/-- A melée with no blocking entity at the destination returns the state
unchanged. -/
theorem melee_perform_noop (s : State) (mid eid : Nat) (dx dy : Int)
    (h : (s.maps mid).get_blocking_entity_at_location s ((s.ents eid).x + dx)
        ((s.ents eid).y + dy) = none) :
    MeleeAction.perform s mid eid dx dy = s := by
  unfold MeleeAction.perform dest_xy
  simp [h]

/-- C1: MovementAction.perform leaves the acting entity's position unchanged
when the destination (x+dx, y+dy) is out of bounds, or its tile is not
walkable, or a blocking entity stands there; otherwise it sets the position
to exactly (x+dx, y+dy). -/
theorem claim1_movement_perform (s : State) (mid eid : Nat) (dx dy : Int) :
    (((s.maps mid).in_bounds ((s.ents eid).x + dx) ((s.ents eid).y + dy) = false
      ∨ (s.maps mid).walkable ((s.ents eid).x + dx) ((s.ents eid).y + dy) = false
      ∨ ((s.maps mid).get_blocking_entity_at_location s ((s.ents eid).x + dx)
          ((s.ents eid).y + dy)).isSome = true) →
      ((MovementAction.perform s mid eid dx dy).ents eid).x = (s.ents eid).x
        ∧ ((MovementAction.perform s mid eid dx dy).ents eid).y = (s.ents eid).y)
    ∧ ((s.maps mid).in_bounds ((s.ents eid).x + dx) ((s.ents eid).y + dy) = true →
       (s.maps mid).walkable ((s.ents eid).x + dx) ((s.ents eid).y + dy) = true →
       (s.maps mid).get_blocking_entity_at_location s ((s.ents eid).x + dx)
          ((s.ents eid).y + dy) = none →
       ((MovementAction.perform s mid eid dx dy).ents eid).x = (s.ents eid).x + dx
         ∧ ((MovementAction.perform s mid eid dx dy).ents eid).y = (s.ents eid).y + dy) := by
  constructor
  · intro h
    rw [movement_perform_noop s mid eid dx dy h]
    exact ⟨rfl, rfl⟩
  · intro h1 h2 h3
    rw [movement_perform_moves s mid eid dx dy h1 h2 h3]
    simp [Entity.move, State.setEnt]

/-- Witness for C1: in `W1`, entity 0 at (5, 5) moves to (6, 5) with
displacement (1, 0), and stays at (5, 5) with displacement (5, 0) whose
destination (10, 5) is out of bounds. -/
theorem claim1_movement_perform_witness :
    (((MovementAction.perform W1 0 0 1 0).ents 0).x = 6
      ∧ ((MovementAction.perform W1 0 0 1 0).ents 0).y = 5)
    ∧ (((MovementAction.perform W1 0 0 5 0).ents 0).x = 5
      ∧ ((MovementAction.perform W1 0 0 5 0).ents 0).y = 5) :=
  ⟨(claim1_movement_perform W1 0 0 1 0).2 (by decide) (by decide) (by decide),
   (claim1_movement_perform W1 0 0 5 0).1 (Or.inl (by decide))⟩

/-- C2: BumpAction.perform yields exactly the world state of
MeléeAction.perform when a blocking entity is at the destination, and
exactly that of MovementAction.perform otherwise. -/
theorem claim2_bump_dispatch (s : State) (mid eid : Nat) (dx dy : Int) :
    ((((s.maps mid).get_blocking_entity_at_location s ((s.ents eid).x + dx)
        ((s.ents eid).y + dy)).isSome = true) →
      BumpAction.perform s mid eid dx dy = MeleeAction.perform s mid eid dx dy)
    ∧ ((s.maps mid).get_blocking_entity_at_location s ((s.ents eid).x + dx)
        ((s.ents eid).y + dy) = none →
      BumpAction.perform s mid eid dx dy = MovementAction.perform s mid eid dx dy) := by
  unfold BumpAction.perform dest_xy
  constructor
  · intro h; simp [h]
  · intro h; simp [h]

/-- Witness for C2: in `W2` a blocking troll stands at (6, 5), so Bump from
(5, 5) with (1, 0) equals Melée; in `W1` nothing blocks (6, 5), so Bump
equals Movement. -/
theorem claim2_bump_dispatch_witness :
    BumpAction.perform W2 0 0 1 0 = MeleeAction.perform W2 0 0 1 0
    ∧ BumpAction.perform W1 0 0 1 0 = MovementAction.perform W1 0 0 1 0 :=
  ⟨(claim2_bump_dispatch W2 0 0 1 0).1 (by decide),
   (claim2_bump_dispatch W1 0 0 1 0).2 (by decide)⟩

/-- C6: MovementAction.perform, MeléeAction.perform and BumpAction.perform
always return normally (no raise statement in their bodies); an illegal
attempt — blocked, out-of-bounds or unwalkable movement, or a melée with no
target — returns normally with the world state unchanged; and
EscapeAction.perform is the one perform that exits via a non-local control
transfer (SystemExit) instead of returning. -/
theorem claim6_failure_semantics (s : State) (mid eid : Nat) (dx dy : Int) :
    (∃ s2, MovementAction.performRes s mid eid dx dy = .normal s2)
    ∧ (∃ s2, MeleeAction.performRes s mid eid dx dy = .normal s2)
    ∧ (∃ s2, BumpAction.performRes s mid eid dx dy = .normal s2)
    ∧ (((s.maps mid).in_bounds ((s.ents eid).x + dx) ((s.ents eid).y + dy) = false
        ∨ (s.maps mid).walkable ((s.ents eid).x + dx) ((s.ents eid).y + dy) = false
        ∨ ((s.maps mid).get_blocking_entity_at_location s ((s.ents eid).x + dx)
            ((s.ents eid).y + dy)).isSome = true) →
        MovementAction.performRes s mid eid dx dy = .normal s)
    ∧ ((s.maps mid).get_blocking_entity_at_location s ((s.ents eid).x + dx)
          ((s.ents eid).y + dy) = none →
        MeleeAction.performRes s mid eid dx dy = .normal s)
    ∧ EscapeAction.perform s eid = .systemExit := by
  refine ⟨⟨_, rfl⟩, ⟨_, rfl⟩, ⟨_, rfl⟩, ?_, ?_, rfl⟩
  · intro h
    unfold MovementAction.performRes
    rw [movement_perform_noop s mid eid dx dy h]
  · intro h
    unfold MeleeAction.performRes
    rw [melee_perform_noop s mid eid dx dy h]

/-- Witness for C6: in `W1`, the out-of-bounds move (5, 0) and the
target-less melée (1, 0) both return normally with the state unchanged. -/
theorem claim6_failure_semantics_witness :
    MovementAction.performRes W1 0 0 5 0 = .normal W1
    ∧ MeleeAction.performRes W1 0 0 1 0 = .normal W1 :=
  ⟨(claim6_failure_semantics W1 0 0 5 0).2.2.2.1 (Or.inl (by decide)),
   (claim6_failure_semantics W1 0 0 1 0).2.2.2.2.1 (by decide)⟩

/-- A world where a dead actor 0 (AI handle absent) and a living actor 1
share the cell (2, 3), the dead actor coming first in the entity-set
iteration order of map 0. -/
def W3 : State :=
  { baseState with
    ents := fun j =>
      if j = 0 then
        { defEntity with x := 2, y := 3, blocks_movement := true,
                         render_order := .actor, kind := .actor none 20 21 }
      else if j = 1 then
        { defEntity with x := 2, y := 3, blocks_movement := true,
                         render_order := .actor, kind := .actor (some 22) 23 24 }
      else defEntity,
    maps := fun j => if j = 0 then { defMap with entities := [0, 1] } else defMap }

/-- A world whose only occupant of (2, 3) — and only entity of map 0 — is
the dead actor 0. -/
def W4 : State :=
  { baseState with
    ents := fun j =>
      if j = 0 then
        { defEntity with x := 2, y := 3, blocks_movement := true,
                         render_order := .actor, kind := .actor none 20 21 }
      else defEntity,
    maps := fun j => if j = 0 then { defMap with entities := [0] } else defMap }

/-- C3 counterexample: in `W3` the dead actor 0 precedes the living actor 1
in the iteration order and both sit at (2, 3), yet get_actor_at_location
returns the living actor 1, not none: GameMap.actors filters the dead actor
out before the positional scan ever sees it, so the scan continues. -/
theorem claim3_counterexample :
    (W3.maps 0).get_actor_at_location W3 2 3 = some 1
      ∧ ¬ (W3.maps 0).get_actor_at_location W3 2 3 = none := by
  decide

/-- C3 as the code forces it to be amended: when a dead actor and a living
actor share (x, y), then whatever the entity-set iteration order — dead
actor first included — get_actor_at_location never returns none: the actor
iteration pre-filters to living actors, so the dead actor is skipped, the
scan continues, and a living actor at (x, y) is returned. -/
theorem claim3_dead_actor_skipped (s : State) (mid : Nat) (x y : Int) (d a : Nat)
    (hd : d ∈ (s.maps mid).entities) (hdk : (s.ents d).isActor = true)
    (hdead : (s.ents d).is_alive = false)
    (hdx : (s.ents d).x = x) (hdy : (s.ents d).y = y)
    (ha : a ∈ (s.maps mid).entities) (hak : (s.ents a).isActor = true)
    (halive : (s.ents a).is_alive = true)
    (hax : (s.ents a).x = x) (hay : (s.ents a).y = y) :
    ∃ r, (s.maps mid).get_actor_at_location s x y = some r
      ∧ (s.ents r).is_alive = true ∧ (s.ents r).x = x ∧ (s.ents r).y = y := by
  have hmem : a ∈ (s.maps mid).actors s := by
    unfold GameMap.actors
    rw [List.mem_filter]
    exact ⟨ha, by simp [hak, halive]⟩
  have hsome : (((s.maps mid).actors s).find?
      (fun i => decide ((s.ents i).x = x) && decide ((s.ents i).y = y))).isSome = true := by
    rw [List.find?_isSome]
    exact ⟨a, hmem, by simp [hax, hay]⟩
  obtain ⟨r, hr⟩ := Option.isSome_iff_exists.mp hsome
  have hrmem := List.mem_of_find?_eq_some hr
  have hrp := List.find?_some hr
  have hrfilter : ((s.ents r).isActor && (s.ents r).is_alive) = true := by
    unfold GameMap.actors at hrmem
    exact (List.mem_filter.mp hrmem).2
  have hralive : (s.ents r).is_alive = true := by
    simp only [Bool.and_eq_true] at hrfilter
    exact hrfilter.2
  simp only [Bool.and_eq_true, decide_eq_true_eq] at hrp
  refine ⟨r, ?_, hralive, hrp.1, hrp.2⟩
  unfold GameMap.get_actor_at_location
  rw [hr]
  simp [hralive]

/-- Witness for the amended C3, at `W3`: the scan returns a living actor at
(2, 3) although the dead actor 0 comes first. -/
theorem claim3_dead_actor_skipped_witness :
    ∃ r, (W3.maps 0).get_actor_at_location W3 2 3 = some r
      ∧ (W3.ents r).is_alive = true ∧ (W3.ents r).x = 2 ∧ (W3.ents r).y = 3 :=
  claim3_dead_actor_skipped W3 0 2 3 0 1 (by decide) (by decide) (by decide)
    (by decide) (by decide) (by decide) (by decide) (by decide) (by decide) (by decide)

/-- C7: get_actor_at_location returns none when no actor in the entity set
sits at (x, y); returns the living actor when it is the only living actor at
(x, y); and returns none when every actor at (x, y) is dead (AI handle
absent). -/
theorem claim7_get_actor_cases (s : State) (mid : Nat) (x y : Int) :
    ((∀ j, j ∈ (s.maps mid).entities → (s.ents j).isActor = true →
        ¬((s.ents j).x = x ∧ (s.ents j).y = y)) →
      (s.maps mid).get_actor_at_location s x y = none)
    ∧ (∀ a, a ∈ (s.maps mid).entities → (s.ents a).isActor = true →
        (s.ents a).is_alive = true → (s.ents a).x = x → (s.ents a).y = y →
        (∀ j, j ∈ (s.maps mid).entities → j ≠ a → (s.ents j).isActor = true →
          (s.ents j).is_alive = true → ¬((s.ents j).x = x ∧ (s.ents j).y = y)) →
        (s.maps mid).get_actor_at_location s x y = some a)
    ∧ ((∀ j, j ∈ (s.maps mid).entities → (s.ents j).isActor = true →
        (s.ents j).x = x → (s.ents j).y = y → (s.ents j).is_alive = false) →
      (s.maps mid).get_actor_at_location s x y = none) := by
  refine ⟨?_, ?_, ?_⟩
  · intro h
    unfold GameMap.get_actor_at_location
    have hn : (((s.maps mid).actors s).find?
        (fun i => decide ((s.ents i).x = x) && decide ((s.ents i).y = y))) = none := by
      rw [List.find?_eq_none]
      intro i hi hp
      have him := List.mem_filter.mp hi
      simp only [Bool.and_eq_true] at him
      simp only [Bool.and_eq_true, decide_eq_true_eq] at hp
      exact h i him.1 him.2.1 hp
    rw [hn]
  · intro a ha hak halive hax hay huniq
    have hmem : a ∈ (s.maps mid).actors s := by
      unfold GameMap.actors
      rw [List.mem_filter]
      exact ⟨ha, by simp [hak, halive]⟩
    have hsome : (((s.maps mid).actors s).find?
        (fun i => decide ((s.ents i).x = x) && decide ((s.ents i).y = y))).isSome = true := by
      rw [List.find?_isSome]
      exact ⟨a, hmem, by simp [hax, hay]⟩
    obtain ⟨r, hr⟩ := Option.isSome_iff_exists.mp hsome
    have hrmem := List.mem_of_find?_eq_some hr
    have hrp := List.find?_some hr
    have hrfilter := (List.mem_filter.mp hrmem).2
    have hrents : r ∈ (s.maps mid).entities := (List.mem_filter.mp hrmem).1
    simp only [Bool.and_eq_true] at hrfilter
    simp only [Bool.and_eq_true, decide_eq_true_eq] at hrp
    have hreq : r = a := by
      by_contra hne
      exact huniq r hrents hne hrfilter.1 hrfilter.2 hrp
    subst hreq
    unfold GameMap.get_actor_at_location
    rw [hr]
    simp [hrfilter.2]
  · intro h
    unfold GameMap.get_actor_at_location
    have hn : (((s.maps mid).actors s).find?
        (fun i => decide ((s.ents i).x = x) && decide ((s.ents i).y = y))) = none := by
      rw [List.find?_eq_none]
      intro i hi hp
      have him := List.mem_filter.mp hi
      simp only [Bool.and_eq_true] at him
      simp only [Bool.and_eq_true, decide_eq_true_eq] at hp
      have := h i him.1 him.2.1 hp.1 hp.2
      rw [him.2.2] at this
      cases this
    rw [hn]

/-- Witness for C7: in `W2` no actor occupies (0, 0); the troll 1 is the
only living actor at (6, 5) and is returned; in `W4` the only actor at
(2, 3) is dead and the query yields none. -/
theorem claim7_get_actor_cases_witness :
    (W2.maps 0).get_actor_at_location W2 0 0 = none
    ∧ (W2.maps 0).get_actor_at_location W2 6 5 = some 1
    ∧ (W4.maps 0).get_actor_at_location W4 2 3 = none :=
  ⟨(claim7_get_actor_cases W2 0 0 0).1 (by decide),
   (claim7_get_actor_cases W2 0 6 5).2.1 1 (by decide) (by decide) (by decide)
     (by decide) (by decide) (by decide),
   (claim7_get_actor_cases W4 0 2 3).2.2 (by decide)⟩

@[simp] theorem setEnt_ents_self (s : State) (i : Nat) (e : Entity) :
    (s.setEnt i e).ents i = e := by
  simp [State.setEnt]

theorem setEnt_ents_ne (s : State) (i j : Nat) (e : Entity) (h : j ≠ i) :
    (s.setEnt i e).ents j = s.ents j := by
  simp [State.setEnt, h]

@[simp] theorem setEnt_maps (s : State) (i : Nat) (e : Entity) :
    (s.setEnt i e).maps = s.maps := rfl

@[simp] theorem setMap_maps_self (s : State) (i : Nat) (m : GameMap) :
    (s.setMap i m).maps i = m := by
  simp [State.setMap]

theorem setMap_maps_ne (s : State) (i j : Nat) (m : GameMap) (h : j ≠ i) :
    (s.setMap i m).maps j = s.maps j := by
  simp [State.setMap, h]

@[simp] theorem setMap_ents (s : State) (i : Nat) (m : GameMap) :
    (s.setMap i m).ents = s.ents := rfl

theorem mem_setAdd_self (l : List Nat) (i : Nat) : i ∈ setAdd l i := by
  unfold setAdd
  split
  · assumption
  · exact List.mem_cons_self i l

theorem addToMap_ents_self (s : State) (eid mid : Nat) :
    (addToMap s eid mid).ents eid = { s.ents eid with parent := some (.map mid) } := by
  simp [addToMap]

theorem addToMap_ents_ne (s : State) (eid mid j : Nat) (h : j ≠ eid) :
    (addToMap s eid mid).ents j = s.ents j := by
  simp [addToMap, setEnt_ents_ne _ _ _ _ h]

theorem addToMap_maps_self (s : State) (eid mid : Nat) :
    (addToMap s eid mid).maps mid =
      { s.maps mid with entities := setAdd (s.maps mid).entities eid } := by
  simp [addToMap]

theorem addToMap_maps_ne (s : State) (eid mid m : Nat) (h : m ≠ mid) :
    (addToMap s eid mid).maps m = s.maps m := by
  simp [addToMap, setMap_maps_ne _ _ _ _ h]

/-- `place` with a map argument, when the entity's parent is its current map
and it is registered there: remove from the old set, then register on the
new map. -/
theorem place_some_map (s : State) (eid : Nat) (x y : Int) (newMid oldMid : Nat)
    (hpar : (s.ents eid).parent = some (ParentRef.map oldMid))
    (hmem : eid ∈ (s.maps oldMid).entities) :
    Entity.place s eid x y (some newMid) =
      some (addToMap
        ((s.setEnt eid { s.ents eid with x := x, y := y }).setMap oldMid
          { (s.maps oldMid) with entities := (s.maps oldMid).entities.erase eid })
        eid newMid) := by
  unfold Entity.place setRemove
  simp [hpar, hmem]

/-- `place` with a map argument raises KeyError when the entity's parent is
a map whose entity set does not contain it. -/
theorem place_keyerror (s : State) (eid : Nat) (x y : Int) (newMid oldMid : Nat)
    (hpar : (s.ents eid).parent = some (ParentRef.map oldMid))
    (hmem : eid ∉ (s.maps oldMid).entities) :
    Entity.place s eid x y (some newMid) = none := by
  unfold Entity.place setRemove
  simp [hpar, hmem]

/-- `place` with a map argument, when the entity has no parent attribute:
no removal happens, the entity is simply registered on the new map. -/
theorem place_parent_none (s : State) (eid : Nat) (x y : Int) (newMid : Nat)
    (hpar : (s.ents eid).parent = none) :
    Entity.place s eid x y (some newMid) =
      some (addToMap (s.setEnt eid { s.ents eid with x := x, y := y }) eid newMid) := by
  unfold Entity.place
  simp [hpar]

/-- `place` with a map argument, when the entity's parent is an inventory:
`self.parent is self.gamemap` is false, so no removal happens. -/
theorem place_parent_inventory (s : State) (eid : Nat) (x y : Int) (newMid iid : Nat)
    (hpar : (s.ents eid).parent = some (ParentRef.inventory iid)) :
    Entity.place s eid x y (some newMid) =
      some (addToMap (s.setEnt eid { s.ents eid with x := x, y := y }) eid newMid) := by
  unfold Entity.place
  simp [hpar]

theorem mem_setAdd_of_mem (l : List Nat) (i j : Nat) (h : j ∈ l) : j ∈ setAdd l i := by
  unfold setAdd
  split
  · exact h
  · exact List.mem_cons_of_mem i h

/-- C4: placing an entity that is registered on exactly one map — the map
its parent refers to — onto a supplied map leaves it registered on exactly
that new map's entity set (never two maps, never zero), at position (x, y). -/
theorem claim4_place_exclusive (s : State) (eid : Nat) (x y : Int) (oldMid newMid : Nat)
    (hpar : (s.ents eid).parent = some (ParentRef.map oldMid))
    (hmem : eid ∈ (s.maps oldMid).entities)
    (hnd : ((s.maps oldMid).entities).Nodup)
    (huniq : ∀ m, m ≠ oldMid → eid ∉ (s.maps m).entities) :
    ∃ s2, Entity.place s eid x y (some newMid) = some s2
      ∧ (s2.ents eid).x = x ∧ (s2.ents eid).y = y
      ∧ (s2.ents eid).parent = some (ParentRef.map newMid)
      ∧ eid ∈ (s2.maps newMid).entities
      ∧ ∀ m, m ≠ newMid → eid ∉ (s2.maps m).entities := by
  refine ⟨_, place_some_map s eid x y newMid oldMid hpar hmem, ?_, ?_, ?_, ?_, ?_⟩
  · rw [addToMap_ents_self]; simp
  · rw [addToMap_ents_self]; simp
  · rw [addToMap_ents_self]
  · rw [addToMap_maps_self]
    exact mem_setAdd_self _ _
  · intro m hm
    rw [addToMap_maps_ne _ _ _ _ hm]
    by_cases ho : m = oldMid
    · subst ho
      simp only [setMap_maps_self]
      exact hnd.not_mem_erase
    · rw [setMap_maps_ne _ _ _ _ ho, setEnt_maps]
      exact huniq m ho

/-- An entity 7 at (1, 1) owned by and registered on map 0 alone. -/
def W5 : State :=
  { baseState with
    ents := fun j =>
      if j = 7 then { defEntity with x := 1, y := 1, parent := some (.map 0) }
      else defEntity,
    maps := fun j => if j = 0 then { defMap with entities := [7] } else defMap }

/-- Witness for C4: moving entity 7 from map 0 to map 1 in `W5` ends with it
registered on map 1 alone, at (3, 4). -/
theorem claim4_place_exclusive_witness :
    ∃ s2, Entity.place W5 7 3 4 (some 1) = some s2
      ∧ (s2.ents 7).x = 3 ∧ (s2.ents 7).y = 4
      ∧ (s2.ents 7).parent = some (ParentRef.map 1)
      ∧ 7 ∈ (s2.maps 1).entities
      ∧ ∀ m, m ≠ 1 → 7 ∉ (s2.maps m).entities :=
  claim4_place_exclusive W5 7 3 4 0 1 (by decide) (by decide) (by decide)
    (by
      intro m hm
      simp [W5, baseState, defMap, hm])

/-- C10: placing an entity whose parent attribute was never set, with a map
supplied, cannot raise: no removal from any entity set happens, the position
becomes (x, y), the map becomes the owner, and the entity joins that map's
entity set. -/
theorem claim10_place_unparented (s : State) (eid : Nat) (x y : Int) (mid : Nat)
    (hpar : (s.ents eid).parent = none) :
    ∃ s2, Entity.place s eid x y (some mid) = some s2
      ∧ (s2.ents eid).x = x ∧ (s2.ents eid).y = y
      ∧ (s2.ents eid).parent = some (ParentRef.map mid)
      ∧ eid ∈ (s2.maps mid).entities
      ∧ (∀ m, m ≠ mid → s2.maps m = s.maps m)
      ∧ (∀ j, j ∈ (s.maps mid).entities → j ∈ (s2.maps mid).entities) := by
  refine ⟨_, place_parent_none s eid x y mid hpar, ?_, ?_, ?_, ?_, ?_, ?_⟩
  · rw [addToMap_ents_self]; simp
  · rw [addToMap_ents_self]; simp
  · rw [addToMap_ents_self]
  · rw [addToMap_maps_self]
    exact mem_setAdd_self _ _
  · intro m hm
    rw [addToMap_maps_ne _ _ _ _ hm, setEnt_maps]
  · intro j hj
    rw [addToMap_maps_self]
    exact mem_setAdd_of_mem _ _ _ hj

/-- Witness for C10: entity 0 of `W1` has no parent set; placing it at
(3, 4) on map 0 succeeds with all the listed effects. -/
theorem claim10_place_unparented_witness :
    ∃ s2, Entity.place W1 0 3 4 (some 0) = some s2
      ∧ (s2.ents 0).x = 3 ∧ (s2.ents 0).y = 4
      ∧ (s2.ents 0).parent = some (ParentRef.map 0)
      ∧ 0 ∈ (s2.maps 0).entities
      ∧ (∀ m, m ≠ 0 → s2.maps m = W1.maps m)
      ∧ (∀ j, j ∈ (W1.maps 0).entities → j ∈ (s2.maps 0).entities) :=
  claim10_place_unparented W1 0 3 4 0 (by decide)

/-- Effects of a successful `place` with a map argument, common to all three
parent cases: the entity ends at (x, y), registered on the new map, and no
other entity record changes. -/
theorem place_spec (s : State) (eid : Nat) (x y : Int) (mid : Nat) (s2 : State)
    (h2 : Entity.place s eid x y (some mid) = some s2) :
    (s2.ents eid).x = x ∧ (s2.ents eid).y = y
    ∧ (∀ j, j ≠ eid → s2.ents j = s.ents j)
    ∧ eid ∈ (s2.maps mid).entities := by
  have hgoal : ∀ s1 : State,
      s2 = addToMap (s1.setEnt eid { s1.ents eid with x := x, y := y }) eid mid →
      (∀ j, (s1.setEnt eid { s1.ents eid with x := x, y := y }).ents j = s.ents j ∨ j = eid) →
      (s2.ents eid).x = x ∧ (s2.ents eid).y = y
        ∧ (∀ j, j ≠ eid → s2.ents j = s.ents j)
        ∧ eid ∈ (s2.maps mid).entities := by
    intro s1 hs2 hpres
    subst hs2
    refine ⟨?_, ?_, ?_, ?_⟩
    · rw [addToMap_ents_self]; simp
    · rw [addToMap_ents_self]; simp
    · intro j hj
      rw [addToMap_ents_ne _ _ _ _ hj]
      rcases hpres j with h | h
      · exact h
      · exact absurd h hj
    · rw [addToMap_maps_self]
      exact mem_setAdd_self _ _
  cases hp : (s.ents eid).parent with
  | none =>
    rw [place_parent_none s eid x y mid hp] at h2
    injection h2 with h2
    refine hgoal s h2.symm ?_
    intro j
    by_cases hj : j = eid
    · exact Or.inr hj
    · exact Or.inl (setEnt_ents_ne _ _ _ _ hj)
  | some pr =>
    cases pr with
    | map oldMid =>
      by_cases hm : eid ∈ (s.maps oldMid).entities
      · rw [place_some_map s eid x y mid oldMid hp hm] at h2
        injection h2 with h2
        have hswap :
            addToMap
              ((s.setEnt eid { s.ents eid with x := x, y := y }).setMap oldMid
                { s.maps oldMid with entities := (s.maps oldMid).entities.erase eid }) eid mid =
            addToMap
              (((s.setMap oldMid
                  { s.maps oldMid with entities := (s.maps oldMid).entities.erase eid }).setEnt eid
                { (s.setMap oldMid
                    { s.maps oldMid with entities := (s.maps oldMid).entities.erase eid }).ents eid
                    with x := x, y := y })) eid mid := rfl
        rw [hswap] at h2
        refine hgoal _ h2.symm ?_
        intro j
        by_cases hj : j = eid
        · exact Or.inr hj
        · refine Or.inl ?_
          rw [setEnt_ents_ne _ _ _ _ hj]
          rfl
      · rw [place_keyerror s eid x y mid oldMid hp hm] at h2
        cases h2
    | inventory iid =>
      rw [place_parent_inventory s eid x y mid iid hp] at h2
      injection h2 with h2
      refine hgoal s h2.symm ?_
      intro j
      by_cases hj : j = eid
      · exact Or.inr hj
      · exact Or.inl (setEnt_ents_ne _ _ _ _ hj)

/-- C8: after a successful `place(E, x, y, M)` on a map with no other
blocking entity at (x, y), get_blocking_entity_at_location(x, y) returns E
exactly when E's blocks_movement flag is true, and none otherwise. -/
theorem claim8_blocking_roundtrip (s : State) (eid : Nat) (x y : Int) (mid : Nat)
    (s2 : State) (h2 : Entity.place s eid x y (some mid) = some s2)
    (hother : ∀ j, j ≠ eid →
      ¬((s.ents j).blocks_movement = true ∧ (s.ents j).x = x ∧ (s.ents j).y = y)) :
    (s2.maps mid).get_blocking_entity_at_location s2 x y =
      if (s2.ents eid).blocks_movement = true then some eid else none := by
  obtain ⟨hx, hy, hpres, hmem⟩ := place_spec s eid x y mid s2 h2
  by_cases hb : (s2.ents eid).blocks_movement = true
  · rw [if_pos hb]
    unfold GameMap.get_blocking_entity_at_location
    have hsome : (((s2.maps mid).entities).find? (fun i =>
        (s2.ents i).blocks_movement
          && decide ((s2.ents i).x = x) && decide ((s2.ents i).y = y))).isSome = true := by
      rw [List.find?_isSome]
      exact ⟨eid, hmem, by simp [hb, hx, hy]⟩
    obtain ⟨r, hr⟩ := Option.isSome_iff_exists.mp hsome
    have hrp := List.find?_some hr
    simp only [Bool.and_eq_true, decide_eq_true_eq] at hrp
    have hreq : r = eid := by
      by_contra hne
      have hje := hpres r hne
      rw [hje] at hrp
      exact hother r hne ⟨hrp.1.1, hrp.1.2, hrp.2⟩
    rw [hreq] at hr
    exact hr
  · rw [if_neg hb]
    unfold GameMap.get_blocking_entity_at_location
    rw [List.find?_eq_none]
    intro i hi hp
    simp only [Bool.and_eq_true, decide_eq_true_eq] at hp
    by_cases hie : i = eid
    · rw [hie] at hp
      exact hb hp.1.1
    · have hje := hpres i hie
      rw [hje] at hp
      exact hother i hie ⟨hp.1.1, hp.1.2, hp.2⟩

/-- The world after placing the blocking troll 1 of `W2` at (2, 2) on
map 0. -/
def W6 : State :=
  addToMap (W2.setEnt 1 { W2.ents 1 with x := 2, y := 2 }) 1 0

/-- The world after placing the non-blocking entity 0 of `W2` at (2, 2) on
map 0. -/
def W7 : State :=
  addToMap (W2.setEnt 0 { W2.ents 0 with x := 2, y := 2 }) 0 0

/-- Witness for C8: placing the blocking troll at (2, 2) makes the query
return it; placing the non-blocking entity 0 there makes the query return
none. -/
theorem claim8_blocking_roundtrip_witness :
    ((W6.maps 0).get_blocking_entity_at_location W6 2 2 =
      if (W6.ents 1).blocks_movement = true then some 1 else none)
    ∧ ((W7.maps 0).get_blocking_entity_at_location W7 2 2 =
      if (W7.ents 0).blocks_movement = true then some 0 else none) :=
  ⟨claim8_blocking_roundtrip W2 1 2 2 0 W6 rfl
    (by
      intro j hj
      by_cases h0 : j = 0
      · subst h0; decide
      · simp [W2, baseState, defEntity, h0, hj]),
   claim8_blocking_roundtrip W2 0 2 2 0 W7 rfl
    (by
      intro j hj
      by_cases h1 : j = 1
      · subst h1; decide
      · simp [W2, baseState, defEntity, hj, h1])⟩

@[simp] theorem setFighter_ents (s : State) (i : Nat) (f : Fighter) :
    (s.setFighter i f).ents = s.ents := rfl

@[simp] theorem setInventory_ents (s : State) (i : Nat) (v : Inventory) :
    (s.setInventory i v).ents = s.ents := rfl

@[simp] theorem setFighter_maps (s : State) (i : Nat) (f : Fighter) :
    (s.setFighter i f).maps = s.maps := rfl

@[simp] theorem setInventory_maps (s : State) (i : Nat) (v : Inventory) :
    (s.setInventory i v).maps = s.maps := rfl

@[simp] theorem setEnt_fighters (s : State) (i : Nat) (e : Entity) :
    (s.setEnt i e).fighters = s.fighters := rfl

@[simp] theorem setMap_fighters (s : State) (i : Nat) (m : GameMap) :
    (s.setMap i m).fighters = s.fighters := rfl

@[simp] theorem setEnt_inventories (s : State) (i : Nat) (e : Entity) :
    (s.setEnt i e).inventories = s.inventories := rfl

@[simp] theorem setMap_inventories (s : State) (i : Nat) (m : GameMap) :
    (s.setMap i m).inventories = s.inventories := rfl

@[simp] theorem setInventory_fighters (s : State) (i : Nat) (v : Inventory) :
    (s.setInventory i v).fighters = s.fighters := rfl

@[simp] theorem setFighter_inventories (s : State) (i : Nat) (f : Fighter) :
    (s.setFighter i f).inventories = s.inventories := rfl

@[simp] theorem setFighter_fighters_self (s : State) (i : Nat) (f : Fighter) :
    (s.setFighter i f).fighters i = f := by
  simp [State.setFighter]

theorem setFighter_fighters_ne (s : State) (i j : Nat) (f : Fighter) (h : j ≠ i) :
    (s.setFighter i f).fighters j = s.fighters j := by
  simp [State.setFighter, h]

@[simp] theorem setInventory_inventories_self (s : State) (i : Nat) (v : Inventory) :
    (s.setInventory i v).inventories i = v := by
  simp [State.setInventory]

theorem setInventory_inventories_ne (s : State) (i j : Nat) (v : Inventory) (h : j ≠ i) :
    (s.setInventory i v).inventories j = s.inventories j := by
  simp [State.setInventory, h]

/-- C9: Actor.__init__ hard-codes blocks_movement = true and render-order
tier ACTOR whatever its arguments, so a cell whose only occupant is such an
actor — alive, or dead with its AI handle cleared — is reported occupied by
get_blocking_entity_at_location. -/
theorem claim9_actor_blocks (s : State) (eid : Nat) (x y : Int) (char : Char)
    (colour : Int × Int × Int) (name : String) (aiId fid iid : Nat) :
    ((Actor.init s eid x y char colour name aiId fid iid).ents eid).blocks_movement = true
    ∧ ((Actor.init s eid x y char colour name aiId fid iid).ents eid).render_order
        = RenderOrder.actor
    ∧ (∀ (ai2 : Option Nat) (m : GameMap) (s3 : State),
        s3 = (Actor.init s eid x y char colour name aiId fid iid).setEnt eid
            { (Actor.init s eid x y char colour name aiId fid iid).ents eid with
                kind := EntityKind.actor ai2 fid iid } →
        eid ∈ m.entities →
        (m.get_blocking_entity_at_location s3 x y).isSome = true) := by
  have hE : (Actor.init s eid x y char colour name aiId fid iid).ents eid =
      { name := name, char := char, colour := colour, x := x, y := y,
        blocks_movement := true, render_order := .actor,
        parent := none, kind := .actor (some aiId) fid iid } := by
    unfold Actor.init
    simp
  refine ⟨by rw [hE], by rw [hE], ?_⟩
  intro ai2 m s3 hs3 hm
  subst hs3
  unfold GameMap.get_blocking_entity_at_location
  rw [List.find?_isSome]
  refine ⟨eid, hm, ?_⟩
  simp [hE]

/-- Witness for C9: a freshly constructed actor at (2, 3) — here with its AI
handle then cleared, i.e. dead — still makes (2, 3) report occupied. -/
theorem claim9_actor_blocks_witness :
    ((Actor.init baseState 0 2 3 'o' (0, 0, 0) "orc" 1 2 3).ents 0).blocks_movement = true
    ∧ (({ defMap with entities := [0] } : GameMap).get_blocking_entity_at_location
        ((Actor.init baseState 0 2 3 'o' (0, 0, 0) "orc" 1 2 3).setEnt 0
          { (Actor.init baseState 0 2 3 'o' (0, 0, 0) "orc" 1 2 3).ents 0 with
              kind := EntityKind.actor none 2 3 }) 2 3).isSome = true :=
  ⟨(claim9_actor_blocks baseState 0 2 3 'o' (0, 0, 0) "orc" 1 2 3).1,
   (claim9_actor_blocks baseState 0 2 3 'o' (0, 0, 0) "orc" 1 2 3).2.2 none
     { defMap with entities := [0] } _ rfl (by decide)⟩

/-- C5: spawning from an actor template yields a clone at (x, y), owned by
and registered on the target map, leaving the template entity and its
Fighter and Inventory instances untouched; the clone's components are fresh
instances distinct from the template's, so mutating them cannot alter the
template's component state. -/
theorem claim5_spawn_independent (s : State) (tid mid : Nat) (x y : Int)
    (ai : Option Nat) (fid iid : Nat)
    (hk : (s.ents tid).kind = EntityKind.actor ai fid iid)
    (htid : tid < s.nextId) (hfid : fid < s.nextId) (hiid : iid < s.nextId) :
    ((Entity.spawn s tid mid x y).2.ents (Entity.spawn s tid mid x y).1).x = x
    ∧ ((Entity.spawn s tid mid x y).2.ents (Entity.spawn s tid mid x y).1).y = y
    ∧ ((Entity.spawn s tid mid x y).2.ents (Entity.spawn s tid mid x y).1).parent
        = some (ParentRef.map mid)
    ∧ (Entity.spawn s tid mid x y).1 ∈ ((Entity.spawn s tid mid x y).2.maps mid).entities
    ∧ (Entity.spawn s tid mid x y).2.ents tid = s.ents tid
    ∧ (Entity.spawn s tid mid x y).2.fighters fid = s.fighters fid
    ∧ (Entity.spawn s tid mid x y).2.inventories iid = s.inventories iid
    ∧ ∃ fid2 iid2 ai2,
        ((Entity.spawn s tid mid x y).2.ents (Entity.spawn s tid mid x y).1).kind
          = EntityKind.actor ai2 fid2 iid2
        ∧ fid2 ≠ fid ∧ iid2 ≠ iid
        ∧ (∀ g : Fighter → Fighter,
            ((Entity.spawn s tid mid x y).2.setFighter fid2
              (g ((Entity.spawn s tid mid x y).2.fighters fid2))).fighters fid
              = s.fighters fid)
        ∧ (∀ g : Inventory → Inventory,
            ((Entity.spawn s tid mid x y).2.setInventory iid2
              (g ((Entity.spawn s tid mid x y).2.inventories iid2))).inventories iid
              = s.inventories iid) := by
  have hfst : (Entity.spawn s tid mid x y).1 = s.nextId := rfl
  have hsp : (Entity.spawn s tid mid x y).2 =
      (((({ s with nextId := s.nextId + 4 }).setFighter (s.nextId + 1)
            { s.fighters fid with parent := some s.nextId }).setInventory (s.nextId + 2)
            { s.inventories iid with parent := some s.nextId }).setEnt s.nextId
            { s.ents tid with
                x := x, y := y, parent := some (ParentRef.map mid),
                kind := EntityKind.actor (ai.map fun _ => s.nextId + 3)
                  (s.nextId + 1) (s.nextId + 2) }).setMap mid
            { s.maps mid with entities := setAdd (s.maps mid).entities s.nextId } := by
    simp only [Entity.spawn, hk]
    rfl
  have htne : tid ≠ s.nextId := Nat.ne_of_lt htid
  have hfne : fid ≠ s.nextId + 1 := by omega
  have hine : iid ≠ s.nextId + 2 := by omega
  refine ⟨?_, ?_, ?_, ?_, ?_, ?_, ?_, ?_⟩
  · rw [hfst, hsp]; simp
  · rw [hfst, hsp]; simp
  · rw [hfst, hsp]; simp
  · rw [hfst, hsp]
    simp only [setMap_maps_self]
    exact mem_setAdd_self _ _
  · rw [hsp]
    simp [setEnt_ents_ne _ _ _ _ htne]
  · rw [hsp]
    simp [setFighter_fighters_ne _ _ _ _ hfne]
  · rw [hsp]
    simp [setInventory_inventories_ne _ _ _ _ hine]
  · refine ⟨s.nextId + 1, s.nextId + 2, ai.map fun _ => s.nextId + 3, ?_,
      Ne.symm hfne, Ne.symm hine, ?_, ?_⟩
    · rw [hfst, hsp]; simp
    · intro g
      rw [setFighter_fighters_ne _ _ _ _ hfne, hsp]
      simp [setFighter_fighters_ne _ _ _ _ hfne]
    · intro g
      rw [setInventory_inventories_ne _ _ _ _ hine, hsp]
      simp [setInventory_inventories_ne _ _ _ _ hine]

/-- An actor template: entity 5 with AI handle 30, Fighter 6, Inventory 7,
all ids below `nextId`. -/
def W8 : State :=
  { baseState with
    ents := fun j =>
      if j = 5 then
        { defEntity with name := "orc", blocks_movement := true,
                         render_order := .actor, kind := .actor (some 30) 6 7 }
      else defEntity }

/-- Witness for C5: spawning the orc template of `W8` onto map 0 at (9, 9)
yields an independent clone. -/
theorem claim5_spawn_independent_witness :
    ((Entity.spawn W8 5 0 9 9).2.ents (Entity.spawn W8 5 0 9 9).1).x = 9
    ∧ ((Entity.spawn W8 5 0 9 9).2.ents (Entity.spawn W8 5 0 9 9).1).y = 9
    ∧ ((Entity.spawn W8 5 0 9 9).2.ents (Entity.spawn W8 5 0 9 9).1).parent
        = some (ParentRef.map 0)
    ∧ (Entity.spawn W8 5 0 9 9).1 ∈ ((Entity.spawn W8 5 0 9 9).2.maps 0).entities
    ∧ (Entity.spawn W8 5 0 9 9).2.ents 5 = W8.ents 5
    ∧ (Entity.spawn W8 5 0 9 9).2.fighters 6 = W8.fighters 6
    ∧ (Entity.spawn W8 5 0 9 9).2.inventories 7 = W8.inventories 7
    ∧ ∃ fid2 iid2 ai2,
        ((Entity.spawn W8 5 0 9 9).2.ents (Entity.spawn W8 5 0 9 9).1).kind
          = EntityKind.actor ai2 fid2 iid2
        ∧ fid2 ≠ 6 ∧ iid2 ≠ 7
        ∧ (∀ g : Fighter → Fighter,
            ((Entity.spawn W8 5 0 9 9).2.setFighter fid2
              (g ((Entity.spawn W8 5 0 9 9).2.fighters fid2))).fighters 6
              = W8.fighters 6)
        ∧ (∀ g : Inventory → Inventory,
            ((Entity.spawn W8 5 0 9 9).2.setInventory iid2
              (g ((Entity.spawn W8 5 0 9 9).2.inventories iid2))).inventories 7
              = W8.inventories 7) :=
  claim5_spawn_independent W8 5 0 9 9 (some 30) 6 7 (by decide) (by decide)
    (by decide) (by decide)
